import Mathlib

/-!
Verification of the RAG core of the chatbot platform: the chunker
(`EmbeddingService.chunk_text`), the vector store adapter
(`VectorStore.insert_embedding` / `VectorStore.similarity_search`) and the RAG
orchestrator (`RAGService.generate_response` with its helpers).  Python strings
are embedded as `List Char` where index arithmetic matters and as `String`
elsewhere; SQL is embedded relationally (a table is a list of rows in insertion
order, `WHERE` a filter, `ORDER BY` a stable ascending sort, `LIMIT` a take);
the pgvector cosine-distance operator and the external generation backend are
parameters of the model.
-/

namespace Chatbot

/-! ## Chunker: `EmbeddingService.chunk_text` (embedding_service.py, lines 62-92) -/

/-- Python `text[i]` on a string: a non-negative index counts from the front, a
negative one from the back; `none` when the index is out of range (the source
would raise `IndexError` there). -/
def pyCharAt (t : List Char) (i : Int) : Option Char :=
  if 0 ≤ i then t.get? i.toNat
  else if 0 ≤ i + t.length then t.get? (i + t.length).toNat
  else none

/-- The sentence-terminal test `text[i] in '.!?'` of `chunk_text`. -/
def isSentenceEnd (c : Char) : Bool := c = '.' || c = '!' || c = '?'

/-- Whether the character at Python index `i` exists and is sentence-terminal. -/
def termAt (t : List Char) (i : Int) : Bool :=
  match pyCharAt t i with
  | some c => isSentenceEnd c
  | none => false

/-- The backward probe loop `for i in range(i0, stop, -1): if text[i] in '.!?'`:
`n` probes counting down from `i`; `.ok (some j)` is the first (largest) hit,
`.ok none` exhaustion, `.error ()` an index outside the string (an `IndexError`
in the source). -/
def scanBackAux (t : List Char) : Nat → Int → Except Unit (Option Int)
  | 0, _ => .ok none
  | n + 1, i =>
    match pyCharAt t i with
    | none => .error ()
    | some c => if isSentenceEnd c then .ok (some i) else scanBackAux t n (i - 1)

/-- `range(i, stop, -1)` probes exactly `(i - stop).toNat` indices, from `i`
down to `stop + 1`. -/
def scanBack (t : List Char) (i stop : Int) : Except Unit (Option Int) :=
  scanBackAux t (i - stop).toNat i

/-- The cut position of one window of `chunk_text` (lines 74-82): `end = start +
chunk_size`; when that lands strictly inside the text, scan backward from `end`
down to (exclusive) `max(start + chunk_size // 2, end - 100)` for a
sentence-terminal character and cut one past it; otherwise keep the raw
boundary. -/
def computeEnd (t : List Char) (chunk_size : Nat) (start : Int) : Except Unit Int :=
  let endPos := start + (chunk_size : Int)
  if endPos < (t.length : Int) then
    match scanBack t endPos (max (start + ((chunk_size / 2 : Nat) : Int)) (endPos - 100)) with
    | .error e => .error e
    | .ok none => .ok endPos
    | .ok (some i) => .ok (i + 1)
  else .ok endPos

/-- Python slice `t[a:b]`: negative bounds count from the back, then both are
clamped to `[0, len t]`. -/
def pySlice (t : List Char) (a b : Int) : List Char :=
  let n : Int := t.length
  let lo := if a < 0 then max (n + a) 0 else min a n
  let hi := if b < 0 then max (n + b) 0 else min b n
  (t.take hi.toNat).drop lo.toNat

/-- The whitespace characters Python `str.strip()` removes (ASCII). -/
def pyIsSpace (c : Char) : Bool :=
  c = ' ' || c = '\t' || c = '\n' || c = '\r' || c = '\x0b' || c = '\x0c'

/-- Python `t.strip()`. -/
def pyStrip (t : List Char) : List Char :=
  ((t.dropWhile pyIsSpace).reverse.dropWhile pyIsSpace).reverse

/-- The outcome of one iteration of the `while start < len(text)` body of
`chunk_text`: finish with the accumulated chunks, continue at a new start, or
abort (an uncaught `IndexError`). -/
inductive ChunkStep where
  | done (chunks : List (List Char))
  | next (start : Int) (chunks : List (List Char))
  | fail

/-- One iteration of the scanning loop of `chunk_text` (lines 73-90): compute
the cut, strip the window, append it when non-empty, step `start` to
`end - overlap`, and stop when the new start reaches the end of the text. -/
def chunkStep (t : List Char) (chunk_size overlap : Nat) (start : Int)
    (acc : List (List Char)) : ChunkStep :=
  match computeEnd t chunk_size start with
  | .error _ => .fail
  | .ok endPos =>
    let chunk := pyStrip (pySlice t start endPos)
    let acc' := if chunk.isEmpty then acc else acc ++ [chunk]
    let start' := endPos - (overlap : Int)
    if (t.length : Int) ≤ start' then .done acc' else .next start' acc'

/-- The scanning loop of `chunk_text`, run on explicit fuel: `none` means the
fuel ran out (the source loops without bound) or an index error.  The source
loop has no other exit: its `while` condition is re-checked only after the
bottom `break` test, which `chunkStep` performs. -/
def chunkLoop (t : List Char) (chunk_size overlap : Nat) :
    Nat → Int → List (List Char) → Option (List (List Char))
  | 0, _, _ => none
  | fuel + 1, start, acc =>
    match chunkStep t chunk_size overlap start acc with
    | .done cs => some cs
    | .fail => none
    | .next s a => chunkLoop t chunk_size overlap fuel s a

/-- The argument defaulting `chunk_size or settings.chunk_size` of lines 64-65:
Python `or` replaces both `None` and `0` by the configured default. -/
def resolveArg (arg : Option Nat) (dflt : Nat) : Nat :=
  match arg with
  | none => dflt
  | some 0 => dflt
  | some n => n

/-- `EmbeddingService.chunk_text(text, chunk_size, overlap)`: texts no longer
than the resolved chunk size are returned whole as a single chunk; longer texts
go through the scanning loop.  The configured defaults are `chunk_size = 1000`,
`chunk_overlap = 200` (config.py lines 65-66).  `fuel` bounds the number of
loop iterations; the source has no such bound. -/
def chunk_text (t : List Char) (chunk_size overlap : Option Nat) (fuel : Nat) :
    Option (List (List Char)) :=
  let cs := resolveArg chunk_size 1000
  let ov := resolveArg overlap 200
  if t.length ≤ cs then some [t] else chunkLoop t cs ov fuel 0 []

/-! ## Vector store adapter: `VectorStore` (vector_store.py)

The `chatbot_embeddings` table is a list of rows in insertion order with a
serial `id`; `execute_query` failures (caught and absorbed by every adapter
method) are modelled by a `fail` flag per call.  The pgvector cosine-distance
operator `<=>` is a parameter `dist` of the query model; similarity is
`1 - dist`, as in the SQL of `similarity_search`. -/

/-- One row of `chatbot_embeddings`. -/
structure EmbeddingRow where
  id : Nat
  chatbot_id : Nat
  source_type : String
  source_id : Nat
  content : String
  content_chunk_index : Nat
  metadata : List (String × String)
  embedding : List ℚ

/-- The table plus its serial-id counter. -/
structure VectorStore where
  rows : List EmbeddingRow
  next_id : Nat

def emptyStore : VectorStore := { rows := [], next_id := 1 }

/-- `VectorStore.insert_embedding` (lines 11-44): append one row (the serial id
comes from the counter); on a query failure the method returns `False` and the
table is unchanged.  `metadata or {}` stores the empty map for `None`. -/
def insert_embedding (s : VectorStore) (fail : Bool) (chatbot_id : Nat)
    (source_type : String) (source_id : Nat) (content : String)
    (embedding : List ℚ) (chunk_index : Nat)
    (metadata : Option (List (String × String))) : VectorStore × Bool :=
  if fail then (s, false)
  else
    ({ rows := s.rows ++
        [{ id := s.next_id, chatbot_id := chatbot_id, source_type := source_type,
           source_id := source_id, content := content,
           content_chunk_index := chunk_index, metadata := metadata.getD [],
           embedding := embedding }],
       next_id := s.next_id + 1 }, true)

/-- One call of an insertion history. -/
structure InsertReq where
  fail : Bool
  chatbot_id : Nat
  source_type : String
  source_id : Nat
  content : String
  embedding : List ℚ
  chunk_index : Nat
  metadata : Option (List (String × String))

/-- Replay an arbitrary insertion history (interleaved tenants, failures)
through `insert_embedding`. -/
def applyInserts (s : VectorStore) (reqs : List InsertReq) : VectorStore :=
  reqs.foldl
    (fun st r =>
      (insert_embedding st r.fail r.chatbot_id r.source_type r.source_id
        r.content r.embedding r.chunk_index r.metadata).1)
    s

/-- One element of the list `similarity_search` returns (the dict built on
lines 123-135). -/
structure RetrievedMatch where
  id : Nat
  chatbot_id : Nat
  source_type : String
  source_id : Nat
  content : String
  chunk_index : Nat
  metadata : List (String × String)
  similarity : ℚ

/-- `VectorStore.similarity_search` (lines 88-139).  The SQL reads: rows with
`chatbot_id = $1` and `1 - (embedding <=> $2) > $3`, ordered by
`embedding <=> $2` ascending, limited to `$4`; each row is mapped to a result
dict carrying `1 - (embedding <=> $2)` as `similarity`.  The SQL fixes the
order only up to equal distances (it has no secondary sort key); this
executable model picks the stable insertion-order refinement of that
underdetermined order — `search_results` below is the tie-free relational
semantics, of which this function is one admissible refinement
(`similarity_search_admissible`).  `fail` models `execute_query` raising,
which the method catches, returning `[]`. -/
def similarity_search (fail : Bool) (dist : List ℚ → List ℚ → ℚ)
    (rows : List EmbeddingRow) (chatbot_id : Nat) (query_embedding : List ℚ)
    (limit : Nat) (threshold : ℚ) : List RetrievedMatch :=
  if fail then []
  else
    let qualifying := rows.filter (fun r =>
      r.chatbot_id == chatbot_id &&
        decide (threshold < 1 - dist r.embedding query_embedding))
    let ordered := qualifying.insertionSort (fun a b =>
      dist a.embedding query_embedding ≤ dist b.embedding query_embedding)
    (ordered.take limit).map (fun r =>
      { id := r.id, chatbot_id := r.chatbot_id, source_type := r.source_type,
        source_id := r.source_id, content := r.content,
        chunk_index := r.content_chunk_index, metadata := r.metadata,
        similarity := 1 - dist r.embedding query_embedding })

/-- The admissible outputs of the `similarity_search` SQL under an engine that
guarantees nothing about tie order: `ORDER BY embedding <=> $2` constrains the
returned rows only up to equal distances, so any distance-sorted permutation of
the qualifying rows may come back, then truncated by `LIMIT` and projected to
result dicts.  `similarity_search` above is the stable-engine refinement of
this relation. -/
def search_results (fail : Bool) (dist : List ℚ → List ℚ → ℚ)
    (rows : List EmbeddingRow) (chatbot_id : Nat) (query_embedding : List ℚ)
    (limit : Nat) (threshold : ℚ) (res : List RetrievedMatch) : Prop :=
  if fail then res = []
  else
    ∃ ordered : List EmbeddingRow,
      ordered.Perm (rows.filter (fun r =>
        r.chatbot_id == chatbot_id &&
          decide (threshold < 1 - dist r.embedding query_embedding)))
      ∧ ordered.Sorted (fun a b =>
          dist a.embedding query_embedding ≤ dist b.embedding query_embedding)
      ∧ res = (ordered.take limit).map (fun r =>
          { id := r.id, chatbot_id := r.chatbot_id, source_type := r.source_type,
            source_id := r.source_id, content := r.content,
            chunk_index := r.content_chunk_index, metadata := r.metadata,
            similarity := 1 - dist r.embedding query_embedding })

/-! ## RAG orchestrator: `RAGService` (rag_service.py)

`generate_response` and its helpers.  The fallible collaborators (embedding
model, database, Ollama backend, `uuid4`) enter as an explicit environment; all
string constants are the source's. -/

/-- Python `m.get(k)` on the metadata dicts. -/
def dictGet (m : List (String × String)) (k : String) : Option String :=
  (m.find? (fun p => p.1 == k)).map (fun p => p.2)

/-- Python `pat in s` (substring containment) on the character list. -/
def listContainsSub (pat : List Char) : List Char → Bool
  | [] => pat.isEmpty
  | c :: rest => pat.isPrefixOf (c :: rest) || listContainsSub pat rest

/-- Python `pat in s` on strings. -/
def containsSub (s pat : String) : Bool := listContainsSub pat.data s.data

/-- The substring all empty-context checks of `rag_service.py` test for. -/
def noInfoMarker : String := "No relevant information found"

/-- `RAGService._prepare_context` (lines 107-119): the sentinel string for an
empty match set, else the chunk texts each prefixed with a source label and
joined by a visible separator. -/
def prepare_context (similar_docs : List RetrievedMatch) : String :=
  if similar_docs.isEmpty then "No relevant information found."
  else
    String.intercalate "\n\n---\n\n"
      (similar_docs.map (fun doc =>
        "Source: " ++ (dictGet doc.metadata "filename").getD "Unknown" ++ "\n"
          ++ doc.content))

/-- One citation record of `RAGService._prepare_sources`; `name`/`url` are
`none` when the source code does not add the key. -/
structure SourceRef where
  type : String
  id : Nat
  relevance_score : ℚ
  name : Option String
  url : Option String

/-- `RAGService._prepare_sources` (lines 189-209).  The `chatbot_id` parameter
is unused by the source body, as here. -/
def prepare_sources (chatbot_id : Nat) (similar_docs : List RetrievedMatch) :
    List SourceRef :=
  similar_docs.map (fun doc =>
    if doc.source_type == "document" then
      { type := doc.source_type, id := doc.source_id,
        relevance_score := doc.similarity,
        name := some ((dictGet doc.metadata "filename").getD
          ("Document " ++ toString doc.source_id)),
        url := none }
    else if doc.source_type == "link" then
      { type := doc.source_type, id := doc.source_id,
        relevance_score := doc.similarity,
        name := some ((dictGet doc.metadata "title").getD
          ("Link " ++ toString doc.source_id)),
        url := some ((dictGet doc.metadata "url").getD "") }
    else
      { type := doc.source_type, id := doc.source_id,
        relevance_score := doc.similarity, name := none, url := none })

/-- One entry of the `user_prompts` request field: a dict read with `.get`, so
every key may be absent. -/
structure UserPrompt where
  order : Option Nat
  type : Option String
  text : Option String

/-- One entry of `chatbot_info['prompts']` (read with mandatory keys). -/
structure ChatbotPrompt where
  type : String
  text : String

/-- The sort key `x.get('order', 999)` of line 62. -/
def promptOrder (p : UserPrompt) : Nat := p.order.getD 999

/-- Step 4 of `generate_response` (lines 52-71): start from the decorated
master prompt when it is non-empty; append the user prompts sorted ascending by
`order` (Python `sorted` is stable, as is insertion sort), keeping those with
type `system` and truthy text; only when the list built so far is empty, fall
back to the `system` prompts of the chatbot metadata. -/
def build_system_prompts (master : String) (user_prompts : Option (List UserPrompt))
    (chatbot_prompts : List ChatbotPrompt) : List String :=
  let l1 : List String :=
    if master == "" then [] else ["[MASTER PROMPT - DO NOT IGNORE]\n" ++ master]
  let l2 :=
    match user_prompts with
    | none => l1
    | some ups =>
      if ups.isEmpty then l1
      else
        (ups.insertionSort (fun a b => promptOrder a ≤ promptOrder b)).foldl
          (fun (acc : List String) (p : UserPrompt) =>
            if p.type == some "system" && p.text.getD "" != "" then
              acc ++ [p.text.getD ""]
            else acc)
          l1
  if l2.isEmpty then
    (chatbot_prompts.filter (fun p => p.type == "system")).map
      (fun (p : ChatbotPrompt) => p.text)
  else l2

/-- The outcome of the HTTP call to Ollama inside `_generate_with_ollama`: a
response with a status code and the optional `response` field of its JSON body,
or a raised exception (transport error, JSON decode error). -/
inductive OllamaOutcome where
  | http (status : Nat) (response_field : Option String)
  | exn (msg : String)

/-- A non-2xx response or a raised exception: the cases `_generate_with_ollama`
answers with its local fallback. -/
def OllamaOutcome.isFailure : OllamaOutcome → Bool
  | .http status _ => status != 200
  | .exn _ => true

/-- The hardcoded default system prompt of lines 136-139. -/
def default_system_prompt : String :=
  "You are a helpful assistant. Use the provided context to answer questions accurately. If the context doesn't contain relevant information, say so politely."

/-- The system prompt `_generate_with_ollama` sends (lines 130-139). -/
def compose_system_prompt (system_prompts : List String) : String :=
  if system_prompts.isEmpty then default_system_prompt
  else String.intercalate "\n\n---\n\n" system_prompts

/-- The user prompt `_generate_with_ollama` sends (lines 141-152): when the
context carries the no-information marker, the bare message plus a no-knowledge
note; otherwise the message wrapped with the context. -/
def compose_user_prompt (message context : String) : String :=
  if containsSub context noInfoMarker then
    message ++ "\n\nNote: I don't have specific information about this in my knowledge base."
  else
    "Based on the following context, please answer the question:\n\nContext:\n"
      ++ context
      ++ "\n\nQuestion: " ++ message
      ++ "\n\nPlease provide a helpful and accurate answer based on the context provided. If the context doesn't fully answer the question, mention that."

/-- The local fallback of `_generate_with_ollama` (lines 174-187, identical in
both the non-200 and the exception branch): the canned no-information message
when the context carries the marker, else a 300-character excerpt of the
context. -/
def ollamaFallback (context : String) : String :=
  if containsSub context noInfoMarker then
    "I don't have specific information about that in my knowledge base. Could you please provide more details or ask about something else?"
  else "Based on the information I have: " ++ context.take 300 ++ "..."

/-- `settings.ollama_model` (config.py line 18). -/
def ollama_model : String := "mistral:7b"

/-- The return value of `_generate_with_ollama` (lines 121-187): on a 200
response the JSON `response` field (or an apology when absent), otherwise the
local fallback.  The composed prompts (`compose_system_prompt`,
`compose_user_prompt`) are what the call sends; the backend's behavior is the
`outcome` parameter. -/
def generate_with_ollama (outcome : OllamaOutcome) (message context : String)
    (system_prompts : List String) : String :=
  match outcome with
  | .http status r =>
    if status == 200 then r.getD "I'm sorry, I couldn't generate a response."
    else ollamaFallback context
  | .exn _ => ollamaFallback context

/-- Python `len(s.split())`: the number of maximal whitespace-free runs. -/
def pyWordCountAux : List Char → Bool → Nat
  | [], _ => 0
  | c :: rest, inWord =>
    if pyIsSpace c then pyWordCountAux rest false
    else (if inWord then 0 else 1) + pyWordCountAux rest true

def pyWordCount (s : String) : Nat := pyWordCountAux s.data false

/-- The `metadata` dict of the response: the success shape of lines 90-95 or
the error marker of line 104. -/
inductive ResponseMetadata where
  | ok (model : String) (tokens_used : Nat) (response_time_ms : Nat)
      (context_chunks : Nat)
  | err (error : String)

/-- The dict `generate_response` returns. -/
structure RAGResponse where
  response : String
  sources : List SourceRef
  session_id : String
  metadata : ResponseMetadata

/-- The environment of one `generate_response` request: the outcome of each
fallible collaborator.  `fresh_uuid` is the `str(uuid.uuid4())` minted at line
35 when no truthy session id was supplied; `fresh_uuid2` the one line 103 would
mint if the resolved session id were itself falsy. -/
structure RAGEnv where
  embed_result : Except String (List ℚ)
  search_fail : Bool
  dist : List ℚ → List ℚ → ℚ
  rows : List EmbeddingRow
  ollama : OllamaOutcome
  fresh_uuid : String
  fresh_uuid2 : String
  master_prompt : String

/-- Line 34: `if not session_id: session_id = str(uuid.uuid4())` — `None` and
the empty string are falsy. -/
def resolve_session (session_id : Option String) (fresh : String) : String :=
  match session_id with
  | none => fresh
  | some s => if s == "" then fresh else s

/-- The `try` body of `generate_response` (lines 37-96), after session
resolution: embedding (the only step that raises — every later helper absorbs
its own failures), retrieval with `limit=5, threshold=0.1`, context assembly,
prompt composition, generation, source derivation, and the response dict.
Conversation persistence (line 84) swallows its own errors and does not affect
the result. -/
def generate_response_body (env : RAGEnv) (chatbot_id : Nat) (message : String)
    (chatbot_prompts : List ChatbotPrompt) (sid : String)
    (user_prompts : Option (List UserPrompt)) : Except String RAGResponse :=
  match env.embed_result with
  | .error e => .error e
  | .ok query_embedding =>
    let similar_docs := similarity_search env.search_fail env.dist env.rows
      chatbot_id query_embedding 5 (1 / 10)
    let context := prepare_context similar_docs
    let system_prompts := build_system_prompts env.master_prompt user_prompts
      chatbot_prompts
    let response_text := generate_with_ollama env.ollama message context
      system_prompts
    .ok { response := response_text,
          sources := prepare_sources chatbot_id similar_docs,
          session_id := sid,
          metadata := .ok ollama_model (pyWordCount response_text) 0
            similar_docs.length }

/-- `RAGService.generate_response` (lines 23-105): resolve the session id, run
the pipeline, and catch any exception into the generic-apology response (lines
98-105), whose session id is `session_id or str(uuid.uuid4())`. -/
def generate_response (env : RAGEnv) (chatbot_id : Nat) (message : String)
    (chatbot_prompts : List ChatbotPrompt) (session_id : Option String)
    (user_prompts : Option (List UserPrompt)) : RAGResponse :=
  let sid := resolve_session session_id env.fresh_uuid
  match generate_response_body env chatbot_id message chatbot_prompts sid
    user_prompts with
  | .ok r => r
  | .error e =>
    { response := "I'm sorry, I encountered an error while processing your request.",
      sources := [],
      session_id := if sid == "" then env.fresh_uuid2 else sid,
      metadata := .err e }

/-! ## General lemmas -/

/-- Appending under a guard inside a left fold is filtering then mapping. -/
theorem foldl_append_filter {α β : Type*} (p : α → Bool) (f : α → β) :
    ∀ (l : List α) (init : List β),
      l.foldl (fun acc x => if p x then acc ++ [f x] else acc) init
        = init ++ (l.filter p).map f
  | [], init => by simp
  | x :: l, init => by
    by_cases h : p x
    · simp only [List.foldl_cons, if_pos h, foldl_append_filter p f l,
        List.filter_cons, h, ite_true, List.map_cons, List.append_assoc,
        List.singleton_append]
    · simp only [List.foldl_cons, if_neg h, foldl_append_filter p f l,
        List.filter_cons, h, Bool.false_eq_true, ite_false]

/-- Ordered insertion preserves a pairwise relation `P` when the inserted
element is `P`-above the whole list and `P` holds backwards across a failed
comparison. -/
theorem pairwise_orderedInsert {α : Type*} (r : α → α → Prop) [DecidableRel r]
    (P : α → α → Prop) (hPr : ∀ a b, ¬ r a b → P b a) (x : α) :
    ∀ l : List α, l.Pairwise P → (∀ b ∈ l, P x b) →
      (l.orderedInsert r x).Pairwise P
  | [], _, _ => by simp
  | y :: l, hP, hx => by
    rw [List.orderedInsert]
    split_ifs with h
    · exact List.Pairwise.cons hx hP
    · refine List.Pairwise.cons ?_
        (pairwise_orderedInsert r P hPr x l (List.Pairwise.of_cons hP)
          (fun b hb => hx b (List.mem_cons_of_mem _ hb)))
      intro b hb
      rcases (List.mem_orderedInsert r).mp hb with hbx | hbl
      · exact hbx ▸ hPr x y h
      · exact (List.pairwise_cons.mp hP).1 b hbl

/-- Insertion sort is stable: it preserves any pairwise relation `P` of the
input that holds backwards across a failed comparison (for a sort key, `P` on
key-equal pairs survives the sort). -/
theorem pairwise_insertionSort {α : Type*} (r : α → α → Prop) [DecidableRel r]
    (P : α → α → Prop) (hPr : ∀ a b, ¬ r a b → P b a) :
    ∀ l : List α, l.Pairwise P → (l.insertionSort r).Pairwise P
  | [], _ => by simp
  | x :: l, hP => by
    rw [List.insertionSort]
    refine pairwise_orderedInsert r P hPr x _
      (pairwise_insertionSort r P hPr l (List.Pairwise.of_cons hP)) ?_
    intro b hb
    exact (List.pairwise_cons.mp hP).1 b
      ((List.perm_insertionSort r l).mem_iff.mp hb)

/-- What the backward probe loop computes: either no probed index is
sentence-terminal, or it returns the greatest probed index that is, with
nothing terminal above it.  The side condition keeps every probed index inside
the string (no `IndexError`). -/
theorem scanBackAux_spec (t : List Char) :
    ∀ (n : Nat) (i : Int),
      (∀ k : Int, i - n < k → k ≤ i → (pyCharAt t k).isSome) →
      (scanBackAux t n i = .ok none ∧
        ∀ k : Int, i - n < k → k ≤ i → termAt t k = false) ∨
      (∃ j : Int, scanBackAux t n i = .ok (some j) ∧ i - n < j ∧ j ≤ i ∧
        termAt t j = true ∧ ∀ k : Int, j < k → k ≤ i → termAt t k = false)
  | 0, i, _ => .inl ⟨rfl, fun _ h1 h2 => absurd h2 (by push_cast at h1; omega)⟩
  | n + 1, i, hsome => by
    have hi : (pyCharAt t i).isSome := hsome i (by push_cast; omega) le_rfl
    obtain ⟨c, hc⟩ := Option.isSome_iff_exists.mp hi
    by_cases ht : isSentenceEnd c = true
    · refine .inr ⟨i, ?_, by push_cast; omega, le_rfl, ?_, ?_⟩
      · simp only [scanBackAux, hc, ht, ite_true]
      · simp only [termAt, hc, ht]
      · intro k h1 h2
        omega
    · have hrec := scanBackAux_spec t n (i - 1)
        (fun k h1 h2 => hsome k (by push_cast at h1 ⊢; omega) (by omega))
      have hstep : scanBackAux t (n + 1) i = scanBackAux t n (i - 1) := by
        simp only [scanBackAux, hc]
        rw [if_neg ht]
      have hterm_i : termAt t i = false := by
        simp only [termAt, hc]
        exact Bool.not_eq_true _ ▸ ht
      rcases hrec with ⟨heq, hall⟩ | ⟨j, heq, hj1, hj2, hj3, hall⟩
      · refine .inl ⟨hstep ▸ heq, ?_⟩
        intro k h1 h2
        rcases eq_or_lt_of_le h2 with rfl | hlt
        · exact hterm_i
        · exact hall k (by push_cast at h1 ⊢; omega) (by omega)
      · refine .inr ⟨j, hstep ▸ heq, by push_cast at hj1 ⊢; omega, by omega, hj3, ?_⟩
        intro k h1 h2
        rcases eq_or_lt_of_le h2 with rfl | hlt
        · exact hterm_i
        · exact hall k h1 (by omega)

/-! ## C6: the short-text branch of `chunk_text` -/

/-- C6 counterexample: a text within the target size that carries surrounding
whitespace is returned as a single chunk unmodified, not trimmed: the claim's
`[t.strip()]` differs from the code's `[text]` (line 68) although `t` is
non-empty after trimming. -/
theorem chunk_short_text_not_stripped :
    chunk_text (" hello ").data (some 10) (some 3) 1 = some [(" hello ").data]
    ∧ pyStrip (" hello ").data = ("hello").data
    ∧ ("hello").data ≠ []
    ∧ (" hello ").data ≠ ("hello").data :=
  ⟨rfl, rfl, by decide, by decide⟩

/-- C6 amended: for every text whose length is at most the resolved target size
(the Python `or` default), `chunk_text` returns exactly the one-element list
`[t]` — the text unmodified, with no trimming and no overlap applied. -/
theorem chunk_short_returns_text (t : List Char) (chunk_size overlap : Option Nat)
    (fuel : Nat) (h : t.length ≤ resolveArg chunk_size 1000) :
    chunk_text t chunk_size overlap fuel = some [t] := by
  simp only [chunk_text]
  rw [if_pos h]

/-- Witness for `chunk_short_returns_text` at a concrete short text. -/
theorem chunk_short_returns_text_witness :
    chunk_text ("hi there").data (some 10) (some 3) 5 = some [("hi there").data] :=
  chunk_short_returns_text ("hi there").data (some 10) (some 3) 5 (by decide)

/-! ## C7: the sentence-boundary backward search of `chunk_text` -/

/-- A 350-character text whose only sentence terminal sits at index 180. -/
def t100 : List Char := List.replicate 180 'a' ++ '.' :: List.replicate 169 'a'

set_option maxRecDepth 4000 in
/-- C7 counterexample: with target 300 the window ends at 300 and a sentence
terminal sits at index 180 — 120 characters back, within the claim's
`target_size/2 = 150` search bound — yet the code cuts at the raw boundary 300:
its backward search stops after 100 characters (`end - 100`, line 79), so the
claim's cut `180 + 1` is not taken. -/
theorem chunk_cut_caps_at_100 :
    computeEnd t100 300 0 = .ok 300
    ∧ termAt t100 180 = true
    ∧ (0 : Int) + 300 - 300 / 2 ≤ 180
    ∧ (180 : Int) + 1 ≠ 300 :=
  ⟨rfl, rfl, by decide, by decide⟩

/-- C7 amended: when a window of `chunk_text` ends strictly inside the text,
the cut is determined by a backward search bounded by
`max(start + target_size/2, end - 100)` — i.e. at most
`min(target_size - target_size/2, 100)` characters, not `target_size/2`:
either no probed position (down to that bound, exclusive) is sentence-terminal
and the cut is the raw window boundary, or the cut is one past the nearest
(greatest) sentence-terminal position above the bound. -/
theorem computeEnd_cut_rule (t : List Char) (chunk_size : Nat) (start : Int)
    (h0 : 0 ≤ start) (hwin : start + (chunk_size : Int) < t.length) :
    (computeEnd t chunk_size start = .ok (start + (chunk_size : Int))
      ∧ ∀ k : Int,
          max (start + ((chunk_size / 2 : Nat) : Int)) (start + (chunk_size : Int) - 100) < k →
          k ≤ start + (chunk_size : Int) → termAt t k = false)
    ∨ (∃ j : Int, computeEnd t chunk_size start = .ok (j + 1)
        ∧ max (start + ((chunk_size / 2 : Nat) : Int)) (start + (chunk_size : Int) - 100) < j
        ∧ j ≤ start + (chunk_size : Int) ∧ termAt t j = true
        ∧ ∀ k : Int, j < k → k ≤ start + (chunk_size : Int) → termAt t k = false) := by
  have hdiv : ((chunk_size / 2 : Nat) : Int) ≤ (chunk_size : Int) := by
    exact_mod_cast Nat.div_le_self chunk_size 2
  set endPos := start + (chunk_size : Int) with hEnd
  set stop := max (start + ((chunk_size / 2 : Nat) : Int)) (endPos - 100) with hStop
  have hstople : stop ≤ endPos := by
    rw [hStop]
    exact max_le (by omega) (by omega)
  have hstop0 : 0 ≤ stop := le_trans (by omega) (le_max_left _ _)
  have hsome : ∀ k : Int, endPos - ((endPos - stop).toNat : Int) < k → k ≤ endPos →
      (pyCharAt t k).isSome := by
    intro k h1 h2
    rw [Int.toNat_of_nonneg (by omega)] at h1
    have hk0 : 0 ≤ k := by omega
    have hklen : k < (t.length : Int) := by omega
    simp only [pyCharAt, if_pos hk0]
    rw [List.get?_eq_getElem?, List.getElem?_eq_getElem (by omega)]
    rfl
  have hspec := scanBackAux_spec t (endPos - stop).toNat endPos hsome
  have hif : computeEnd t chunk_size start =
      match scanBack t endPos stop with
      | .error e => .error e
      | .ok none => .ok endPos
      | .ok (some i) => .ok (i + 1) := by
    simp only [computeEnd, hEnd, hStop]
    rw [if_pos hwin]
  rw [Int.toNat_of_nonneg (by omega)] at hspec
  rcases hspec with ⟨heq, hall⟩ | ⟨j, heq, hj1, hj2, hj3, hall⟩
  · refine .inl ⟨?_, ?_⟩
    · rw [hif]
      unfold scanBack
      rw [heq]
    · intro k h1 h2
      exact hall k (by omega) h2
  · refine .inr ⟨j, ?_, by omega, hj2, hj3, hall⟩
    rw [hif]
    unfold scanBack
    rw [heq]

/-- Witness for `computeEnd_cut_rule`: a window with a terminal inside the
probed range, where the cut lands one past it. -/
theorem computeEnd_cut_rule_witness :
    (computeEnd ("abcdef. hij klmno").data 10 0 = .ok ((0 : Int) + (10 : Nat))
      ∧ ∀ k : Int,
          max ((0 : Int) + ((10 / 2 : Nat) : Int)) ((0 : Int) + (10 : Nat) - 100) < k →
          k ≤ (0 : Int) + (10 : Nat) → termAt ("abcdef. hij klmno").data k = false)
    ∨ (∃ j : Int, computeEnd ("abcdef. hij klmno").data 10 0 = .ok (j + 1)
        ∧ max ((0 : Int) + ((10 / 2 : Nat) : Int)) ((0 : Int) + (10 : Nat) - 100) < j
        ∧ j ≤ (0 : Int) + (10 : Nat) ∧ termAt ("abcdef. hij klmno").data j = true
        ∧ ∀ k : Int, j < k → k ≤ (0 : Int) + (10 : Nat) →
            termAt ("abcdef. hij klmno").data k = false) :=
  computeEnd_cut_rule ("abcdef. hij klmno").data 10 0 (by decide) (by decide)

/-! ## C8: termination of the `chunk_text` loop -/

/-- The 12-character text on which the loop never advances. -/
def tLoop : List Char := ("abcdefg.xyzk").data

/-- One iteration from start 0: the window `[0, 10)` snaps its cut to the
terminal at index 7 (cut 8), and `start = 8 - 8 = 0` again. -/
theorem chunkStep_tLoop (acc : List (List Char)) :
    chunkStep tLoop 10 8 0 acc = .next 0 (acc ++ [("abcdefg.").data]) := rfl

/-- The loop returns to the same start forever: no fuel suffices. -/
theorem chunkLoop_tLoop : ∀ (fuel : Nat) (acc : List (List Char)),
    chunkLoop tLoop 10 8 fuel 0 acc = none
  | 0, _ => rfl
  | fuel + 1, acc => by
    simp only [chunkLoop, chunkStep_tLoop]
    exact chunkLoop_tLoop fuel _

/-- C8 (code bug): `chunk_text` does not terminate on every input: on the
12-character text `"abcdefg.xyzk"` with `chunk_size=10, overlap=8` the cut
snaps backward to index 8 and `start = end - overlap` returns to 0 on every
iteration, so the loop (which has no did-not-advance guard, contrary to the
spec) runs forever — here, every finite fuel is exhausted. -/
theorem chunk_text_diverges (fuel : Nat) :
    chunk_text tLoop (some 10) (some 8) fuel = none := by
  simp only [chunk_text, resolveArg]
  rw [if_neg (by decide)]
  exact chunkLoop_tLoop fuel []

/-! ## C9: prompt layering -/

/-- The tenant-configured layer: the texts of the user prompts with type
`system` and truthy text, sorted ascending by `order` (default 999). -/
def user_prompt_texts (user_prompts : Option (List UserPrompt)) : List String :=
  match user_prompts with
  | none => []
  | some ups =>
    ((ups.insertionSort (fun a b => promptOrder a ≤ promptOrder b)).filter
        (fun p => p.type == some "system" && p.text.getD "" != "")).map
      (fun p => p.text.getD "")

/-- The legacy layer: the `system` prompts of the chatbot metadata. -/
def legacy_prompt_texts (chatbot_prompts : List ChatbotPrompt) : List String :=
  (chatbot_prompts.filter (fun p => p.type == "system")).map
    (fun (p : ChatbotPrompt) => p.text)

/-- C9 counterexample: the mandatory block is present and the tenant snippet
list (b) is empty, yet the legacy metadata prompt is NOT included — the code
guard `if not system_prompts_list` (line 67) sees the master prompt already in
the list, so legacy prompts are reachable only when the mandatory block is
absent, contrary to the claim's "regardless of whether the mandatory block is
present". -/
theorem legacy_prompts_skipped_when_master_present :
    build_system_prompts "M" none [{ type := "system", text := "Legacy rule" }]
        = ["[MASTER PROMPT - DO NOT IGNORE]\nM"]
    ∧ "Legacy rule" ∉
        build_system_prompts "M" none [{ type := "system", text := "Legacy rule" }] :=
  ⟨rfl, by decide⟩

/-- C9 amended: the composed instructions are: the decorated mandatory block
first whenever it is non-empty; then the tenant snippets sorted ascending by
their order field (a stable sort); the legacy metadata prompts are included
exactly when everything before them is empty — that is, only when the mandatory
block is absent AND the tenant snippet layer contributes nothing. -/
theorem build_system_prompts_spec (master : String)
    (user_prompts : Option (List UserPrompt))
    (chatbot_prompts : List ChatbotPrompt) :
    build_system_prompts master user_prompts chatbot_prompts
      = (if master == "" then [] else ["[MASTER PROMPT - DO NOT IGNORE]\n" ++ master])
        ++ (if (master == "") = true ∧ user_prompt_texts user_prompts = [] then
              legacy_prompt_texts chatbot_prompts
            else user_prompt_texts user_prompts)
    ∧ (∀ l : List UserPrompt,
        (l.insertionSort (fun a b => promptOrder a ≤ promptOrder b)).Pairwise
          (fun a b => promptOrder a ≤ promptOrder b)) := by
  constructor
  · have hl2 : build_system_prompts master user_prompts chatbot_prompts
        = (if ((if master == "" then ([] : List String)
                else ["[MASTER PROMPT - DO NOT IGNORE]\n" ++ master])
              ++ user_prompt_texts user_prompts).isEmpty then
            legacy_prompt_texts chatbot_prompts
          else (if master == "" then []
                else ["[MASTER PROMPT - DO NOT IGNORE]\n" ++ master])
            ++ user_prompt_texts user_prompts) := by
      simp only [build_system_prompts, legacy_prompt_texts]
      rcases user_prompts with _ | ups
      · simp [user_prompt_texts]
      · by_cases hups : ups.isEmpty
        · rw [List.isEmpty_iff] at hups
          subst hups
          simp [user_prompt_texts]
        · simp only [hups, Bool.false_eq_true, ite_false,
            foldl_append_filter
              (fun p : UserPrompt => p.type == some "system" && p.text.getD "" != "")
              (fun p : UserPrompt => p.text.getD "")
              (ups.insertionSort (fun a b => promptOrder a ≤ promptOrder b)),
            user_prompt_texts]
    rw [hl2]
    by_cases hm : (master == "") = true
    · simp only [hm, ite_true, List.nil_append]
      by_cases hU : user_prompt_texts user_prompts = []
      · simp [hU]
      · simp [hU, List.isEmpty_iff]
    · simp only [hm, Bool.false_eq_true, ite_false, List.cons_append,
        List.isEmpty_cons, false_and, List.nil_append]
  · intro l
    haveI : IsTotal UserPrompt (fun a b => promptOrder a ≤ promptOrder b) :=
      ⟨fun a b => Nat.le_total _ _⟩
    haveI : IsTrans UserPrompt (fun a b => promptOrder a ≤ promptOrder b) :=
      ⟨fun _ _ _ hab hbc => le_trans hab hbc⟩
    exact List.sorted_insertionSort _ l

/-! ## C1 and C5: the similarity search -/

/-- Membership in a similarity-search result forces the requesting tenant: the
`WHERE chatbot_id = $1` filter survives ordering, truncation and projection. -/
theorem mem_similarity_search_chatbot_id (fail : Bool)
    (dist : List ℚ → List ℚ → ℚ) (rows : List EmbeddingRow) (cb : Nat)
    (q : List ℚ) (k : Nat) (θ : ℚ) (m : RetrievedMatch)
    (hm : m ∈ similarity_search fail dist rows cb q k θ) :
    m.chatbot_id = cb := by
  simp only [similarity_search] at hm
  by_cases hf : fail = true
  · rw [if_pos hf] at hm
    exact absurd hm (List.not_mem_nil m)
  · rw [if_neg hf] at hm
    obtain ⟨r, hr, rfl⟩ := List.mem_map.mp hm
    have hr2 : r ∈ rows.filter (fun r =>
        r.chatbot_id == cb && decide (θ < 1 - dist r.embedding q)) :=
      (List.perm_insertionSort _ _).mem_iff.mp (List.mem_of_mem_take hr)
    have h3 := (List.mem_filter.mp hr2).2
    simp only [Bool.and_eq_true, beq_iff_eq, decide_eq_true_eq] at h3
    exact h3.1

/-- C1 (confirmed): for every insertion history (interleaved tenants and
failed inserts included), every distance function, query embedding, limit and
threshold, every match `similarity_search` returns belongs to the requesting
tenant. -/
theorem similarity_search_tenant_isolation (reqs : List InsertReq) (fail : Bool)
    (dist : List ℚ → List ℚ → ℚ) (cb : Nat) (q : List ℚ) (k : Nat) (θ : ℚ)
    (m : RetrievedMatch)
    (hm : m ∈ similarity_search fail dist (applyInserts emptyStore reqs).rows cb q k θ) :
    m.chatbot_id = cb :=
  mem_similarity_search_chatbot_id fail dist _ cb q k θ m hm

/-- A distance function that makes every pair of embeddings equally close. -/
def distZero : List ℚ → List ℚ → ℚ := fun _ _ => 0

def reqA : InsertReq :=
  { fail := false, chatbot_id := 1, source_type := "document", source_id := 1,
    content := "Refunds are processed within 5 business days.",
    embedding := [1, 0], chunk_index := 0, metadata := none }

def reqB : InsertReq :=
  { fail := false, chatbot_id := 2, source_type := "document", source_id := 7,
    content := "Tenant B text.", embedding := [0, 1], chunk_index := 0,
    metadata := none }

/-- Witness for `similarity_search_tenant_isolation`: after interleaved inserts
from tenants 1 and 2, tenant 1's query returns its own chunk. -/
theorem similarity_search_tenant_isolation_witness :
    ({ id := 1, chatbot_id := 1, source_type := "document", source_id := 1,
       content := "Refunds are processed within 5 business days.",
       chunk_index := 0, metadata := [],
       similarity := 1 - distZero [1, 0] [1, 0] } : RetrievedMatch).chatbot_id = 1 :=
  similarity_search_tenant_isolation [reqA, reqB] false distZero 1 [1, 0] 5
    (1 / 2) _
    (by norm_num [similarity_search, applyInserts, insert_embedding, emptyStore,
      reqA, reqB, distZero, List.insertionSort, List.orderedInsert,
      List.filter_cons])

/-- The stable-engine refinement `similarity_search` is sorted descending by
similarity, strictly thresholded, limited, and — under THIS refinement's
stable tie order, which the SQL itself does not guarantee (see
`search_results_ordered` and `similarity_search_tie_order_not_guaranteed`) —
keeps insertion (serial-id) order among equal similarities. -/
theorem similarity_search_ordered (fail : Bool) (dist : List ℚ → List ℚ → ℚ)
    (rows : List EmbeddingRow) (cb : Nat) (q : List ℚ) (k : Nat) (θ : ℚ)
    (hids : rows.Pairwise (fun a b => a.id < b.id)) :
    List.Pairwise (fun a b => b.similarity ≤ a.similarity)
        (similarity_search fail dist rows cb q k θ)
    ∧ (∀ m ∈ similarity_search fail dist rows cb q k θ, θ < m.similarity)
    ∧ (similarity_search fail dist rows cb q k θ).length ≤ k
    ∧ List.Pairwise (fun a b => a.similarity = b.similarity → a.id < b.id)
        (similarity_search fail dist rows cb q k θ) := by
  by_cases hf : fail = true
  · simp [similarity_search, hf]
  · simp only [similarity_search, if_neg hf]
    haveI : IsTotal EmbeddingRow
        (fun a b => dist a.embedding q ≤ dist b.embedding q) :=
      ⟨fun a b => le_total _ _⟩
    haveI : IsTrans EmbeddingRow
        (fun a b => dist a.embedding q ≤ dist b.embedding q) :=
      ⟨fun _ _ _ hab hbc => le_trans hab hbc⟩
    refine ⟨?_, ?_, ?_, ?_⟩
    · rw [List.pairwise_map]
      have hs := List.sorted_insertionSort
        (fun a b : EmbeddingRow => dist a.embedding q ≤ dist b.embedding q)
        (rows.filter (fun r =>
          r.chatbot_id == cb && decide (θ < 1 - dist r.embedding q)))
      exact (List.Pairwise.sublist (List.take_sublist _ _) hs).imp
        (fun h => sub_le_sub_left h 1)
    · intro m hm
      obtain ⟨r, hr, rfl⟩ := List.mem_map.mp hm
      have hr2 : r ∈ rows.filter (fun r =>
          r.chatbot_id == cb && decide (θ < 1 - dist r.embedding q)) :=
        (List.perm_insertionSort _ _).mem_iff.mp (List.mem_of_mem_take hr)
      have h3 := (List.mem_filter.mp hr2).2
      simp only [Bool.and_eq_true, beq_iff_eq, decide_eq_true_eq] at h3
      exact h3.2
    · rw [List.length_map]
      exact List.length_take_le _ _
    · rw [List.pairwise_map]
      have h1 : (rows.filter (fun r =>
          r.chatbot_id == cb && decide (θ < 1 - dist r.embedding q))).Pairwise
            (fun a b : EmbeddingRow =>
              dist a.embedding q = dist b.embedding q → a.id < b.id) := by
        refine List.Pairwise.imp ?_ (hids.filter _)
        intro a b h _
        exact h
      have h2 := pairwise_insertionSort
        (fun a b : EmbeddingRow => dist a.embedding q ≤ dist b.embedding q)
        (fun a b : EmbeddingRow =>
          dist a.embedding q = dist b.embedding q → a.id < b.id)
        (fun _ _ hab heq => absurd (le_of_eq heq.symm) hab) _ h1
      exact (List.Pairwise.sublist (List.take_sublist _ _) h2).imp
        (fun h hsim => h (sub_right_inj.mp hsim))

/-- Serial ids are strictly increasing along any table reached from a
well-formed store by an insertion history, so `similarity_search_ordered`'s
hypothesis holds for every real store. -/
theorem applyInserts_pairwise_id :
    ∀ (reqs : List InsertReq) (s : VectorStore),
      s.rows.Pairwise (fun a b => a.id < b.id) →
      (∀ r ∈ s.rows, r.id < s.next_id) →
      (applyInserts s reqs).rows.Pairwise (fun a b => a.id < b.id)
  | [], _, h1, _ => h1
  | req :: reqs, s, h1, h2 => by
    simp only [applyInserts, List.foldl_cons]
    by_cases hfail : req.fail = true
    · simp only [insert_embedding, hfail, ite_true]
      exact applyInserts_pairwise_id reqs s h1 h2
    · simp only [insert_embedding, hfail, Bool.false_eq_true, ite_false]
      refine applyInserts_pairwise_id reqs _ ?_ ?_
      · dsimp only
        rw [List.pairwise_append]
        exact ⟨h1, List.pairwise_singleton _ _,
          fun a ha b hb => by
            rw [List.mem_singleton.mp hb]
            exact h2 a ha⟩
      · dsimp only
        intro r hr
        rcases List.mem_append.mp hr with hr | hr
        · exact lt_trans (h2 r hr) (Nat.lt_succ_self _)
        · rw [List.mem_singleton.mp hr]
          exact Nat.lt_succ_self _

/-- The table of any insertion history replayed from the empty store has
strictly increasing serial ids. -/
theorem applyInserts_emptyStore_pairwise_id (reqs : List InsertReq) :
    (applyInserts emptyStore reqs).rows.Pairwise (fun a b => a.id < b.id) :=
  applyInserts_pairwise_id reqs emptyStore (List.Pairwise.nil)
    (fun r hr => absurd hr (List.not_mem_nil r))

def rowTie1 : EmbeddingRow :=
  { id := 1, chatbot_id := 1, source_type := "document", source_id := 1,
    content := "first", content_chunk_index := 0, metadata := [],
    embedding := [1, 0] }

def rowTie2 : EmbeddingRow :=
  { id := 2, chatbot_id := 1, source_type := "document", source_id := 2,
    content := "second", content_chunk_index := 0, metadata := [],
    embedding := [0, 1] }

/-- Two rows of one tenant, equidistant from every query under `distZero`. -/
def rowsTie : List EmbeddingRow := [rowTie1, rowTie2]

/-- Instance of `similarity_search_ordered` at a store with a perfect tie. -/
theorem similarity_search_ordered_witness :
    List.Pairwise (fun a b => b.similarity ≤ a.similarity)
        (similarity_search false distZero rowsTie 1 [1, 0] 3 (1 / 2))
    ∧ (∀ m ∈ similarity_search false distZero rowsTie 1 [1, 0] 3 (1 / 2),
        (1 : ℚ) / 2 < m.similarity)
    ∧ (similarity_search false distZero rowsTie 1 [1, 0] 3 (1 / 2)).length ≤ 3
    ∧ List.Pairwise (fun a b => a.similarity = b.similarity → a.id < b.id)
        (similarity_search false distZero rowsTie 1 [1, 0] 3 (1 / 2)) :=
  similarity_search_ordered false distZero rowsTie 1 [1, 0] 3 (1 / 2) (by decide)

/-- The deterministic model is one admissible outcome of the SQL: its stable
insertion-order sort is a distance-sorted permutation of the qualifying rows. -/
theorem similarity_search_admissible (fail : Bool) (dist : List ℚ → List ℚ → ℚ)
    (rows : List EmbeddingRow) (cb : Nat) (q : List ℚ) (k : Nat) (θ : ℚ) :
    search_results fail dist rows cb q k θ
      (similarity_search fail dist rows cb q k θ) := by
  by_cases hf : fail = true
  · simp [search_results, similarity_search, hf]
  · simp only [search_results, similarity_search, if_neg hf]
    haveI : IsTotal EmbeddingRow
        (fun a b => dist a.embedding q ≤ dist b.embedding q) :=
      ⟨fun a b => le_total _ _⟩
    haveI : IsTrans EmbeddingRow
        (fun a b => dist a.embedding q ≤ dist b.embedding q) :=
      ⟨fun _ _ _ hab hbc => le_trans hab hbc⟩
    exact ⟨_, List.perm_insertionSort _ _, List.sorted_insertionSort _ _, rfl⟩

/-- C5 amended: every result the similarity-search SQL may return — under ANY
tie ordering the database chooses among equal distances — is sorted descending
by similarity (`1 - distance`), every match strictly exceeds `min_similarity`,
and the length never exceeds `k`.  The claim's further clause, ties broken by
insertion order, is not guaranteed by the program: the SQL has no secondary
sort key (see `similarity_search_tie_order_not_guaranteed`). -/
theorem search_results_ordered (fail : Bool) (dist : List ℚ → List ℚ → ℚ)
    (rows : List EmbeddingRow) (cb : Nat) (q : List ℚ) (k : Nat) (θ : ℚ)
    (res : List RetrievedMatch)
    (hres : search_results fail dist rows cb q k θ res) :
    List.Pairwise (fun a b => b.similarity ≤ a.similarity) res
    ∧ (∀ m ∈ res, θ < m.similarity)
    ∧ res.length ≤ k := by
  by_cases hf : fail = true
  · rw [search_results, if_pos hf] at hres
    subst hres
    simp
  · rw [search_results, if_neg hf] at hres
    obtain ⟨ordered, hperm, hsort, rfl⟩ := hres
    refine ⟨?_, ?_, ?_⟩
    · rw [List.pairwise_map]
      exact (List.Pairwise.sublist (List.take_sublist _ _) hsort).imp
        (fun h => sub_le_sub_left h 1)
    · intro m hm
      obtain ⟨r, hr, rfl⟩ := List.mem_map.mp hm
      have hr2 : r ∈ rows.filter (fun r =>
          r.chatbot_id == cb && decide (θ < 1 - dist r.embedding q)) :=
        hperm.mem_iff.mp (List.mem_of_mem_take hr)
      have h3 := (List.mem_filter.mp hr2).2
      simp only [Bool.and_eq_true, beq_iff_eq, decide_eq_true_eq] at h3
      exact h3.2
    · rw [List.length_map]
      exact List.length_take_le _ _

/-- Witness for `search_results_ordered`: the stable-engine refinement at a
concrete tied store is one admissible result. -/
theorem search_results_ordered_witness :
    List.Pairwise (fun a b => b.similarity ≤ a.similarity)
        (similarity_search false distZero rowsTie 1 [1, 0] 3 (1 / 2))
    ∧ (∀ m ∈ similarity_search false distZero rowsTie 1 [1, 0] 3 (1 / 2),
        (1 : ℚ) / 2 < m.similarity)
    ∧ (similarity_search false distZero rowsTie 1 [1, 0] 3 (1 / 2)).length ≤ 3 :=
  search_results_ordered false distZero rowsTie 1 [1, 0] 3 (1 / 2)
    (similarity_search false distZero rowsTie 1 [1, 0] 3 (1 / 2))
    (similarity_search_admissible false distZero rowsTie 1 [1, 0] 3 (1 / 2))

def tieA : RetrievedMatch :=
  { id := 1, chatbot_id := 1, source_type := "document", source_id := 1,
    content := "first", chunk_index := 0, metadata := [], similarity := 1 }

def tieB : RetrievedMatch :=
  { id := 2, chatbot_id := 1, source_type := "document", source_id := 2,
    content := "second", chunk_index := 0, metadata := [], similarity := 1 }

/-- C5 counterexample: ties broken by insertion order is NOT a property of the
program.  On a store with two perfectly tied rows of one tenant, the result
that returns the tie in REVERSE insertion order (serial id 2 before 1) is an
admissible output of the `ORDER BY`-only-by-distance SQL — and it violates the
claim's tie-break clause. -/
theorem similarity_search_tie_order_not_guaranteed :
    search_results false distZero rowsTie 1 [1, 0] 3 (1 / 2) [tieB, tieA]
    ∧ tieB.similarity = tieA.similarity
    ∧ tieA.id < tieB.id
    ∧ ¬ List.Pairwise (fun a b => a.similarity = b.similarity → a.id < b.id)
        [tieB, tieA] := by
  refine ⟨?_, rfl, by decide, ?_⟩
  · rw [search_results, if_neg (by decide)]
    refine ⟨[rowTie2, rowTie1], ?_, ?_, ?_⟩
    · have hfilt : rowsTie.filter (fun r =>
          r.chatbot_id == 1 && decide ((1 : ℚ) / 2 < 1 - distZero r.embedding [1, 0]))
          = [rowTie1, rowTie2] := by
        norm_num [rowsTie, rowTie1, rowTie2, distZero, List.filter_cons]
      rw [hfilt]
      exact List.Perm.swap rowTie1 rowTie2 []
    · norm_num [rowTie1, rowTie2, distZero, List.pairwise_cons]
    · norm_num [rowTie1, rowTie2, tieA, tieB, distZero]
  · norm_num [List.pairwise_cons, tieA, tieB]

/-! ## Orchestrator lemmas -/

/-- A resolved session id is non-empty as soon as the minted uuid is: the
supplied id is kept only when truthy. -/
theorem resolve_session_ne_empty (session_id : Option String) (fresh : String)
    (h : fresh ≠ "") : resolve_session session_id fresh ≠ "" := by
  cases session_id with
  | none => exact h
  | some s =>
    simp only [resolve_session]
    by_cases hs : (s == "") = true
    · rw [if_pos hs]
      exact h
    · rw [if_neg hs]
      simpa using hs

/-- The success shape of `generate_response`: when the embedding step returns a
vector, the pipeline runs through retrieval, context assembly, prompt
composition, generation, source derivation and the response dict. -/
theorem generate_response_ok (env : RAGEnv) (chatbot_id : Nat) (message : String)
    (chatbot_prompts : List ChatbotPrompt) (session_id : Option String)
    (user_prompts : Option (List UserPrompt)) (v : List ℚ)
    (hv : env.embed_result = .ok v) :
    generate_response env chatbot_id message chatbot_prompts session_id user_prompts
      = { response := generate_with_ollama env.ollama message
            (prepare_context (similarity_search env.search_fail env.dist env.rows
              chatbot_id v 5 (1 / 10)))
            (build_system_prompts env.master_prompt user_prompts chatbot_prompts),
          sources := prepare_sources chatbot_id
            (similarity_search env.search_fail env.dist env.rows chatbot_id v 5
              (1 / 10)),
          session_id := resolve_session session_id env.fresh_uuid,
          metadata := .ok ollama_model
            (pyWordCount (generate_with_ollama env.ollama message
              (prepare_context (similarity_search env.search_fail env.dist
                env.rows chatbot_id v 5 (1 / 10)))
              (build_system_prompts env.master_prompt user_prompts chatbot_prompts)))
            0
            (similarity_search env.search_fail env.dist env.rows chatbot_id v 5
              (1 / 10)).length } := by
  simp only [generate_response, generate_response_body, hv]

/-- The failure shape of `generate_response`: an embedding error reaches the
global handler, which returns the generic apology object. -/
theorem generate_response_error (env : RAGEnv) (chatbot_id : Nat)
    (message : String) (chatbot_prompts : List ChatbotPrompt)
    (session_id : Option String) (user_prompts : Option (List UserPrompt))
    (e : String) (he : env.embed_result = .error e) :
    generate_response env chatbot_id message chatbot_prompts session_id user_prompts
      = { response := "I'm sorry, I encountered an error while processing your request.",
          sources := [],
          session_id :=
            if resolve_session session_id env.fresh_uuid == "" then env.fresh_uuid2
            else resolve_session session_id env.fresh_uuid,
          metadata := .err e } := by
  simp only [generate_response, generate_response_body, he]

/-- On a failing backend outcome, `_generate_with_ollama` answers with its
local fallback. -/
theorem generate_with_ollama_failure (outcome : OllamaOutcome)
    (message context : String) (system_prompts : List String)
    (h : outcome.isFailure = true) :
    generate_with_ollama outcome message context system_prompts
      = ollamaFallback context := by
  cases outcome with
  | http status r =>
    simp only [OllamaOutcome.isFailure, bne_iff_ne, ne_eq] at h
    simp only [generate_with_ollama]
    rw [if_neg (by simpa using h)]
  | exn msg => rfl

/-- Both fallback answers are non-empty text. -/
theorem ollamaFallback_ne_empty (context : String) : ollamaFallback context ≠ "" := by
  unfold ollamaFallback
  split_ifs
  · decide
  · intro h
    have h2 := congrArg String.length h
    rw [String.length_append, String.length_append] at h2
    have h3 : ("Based on the information I have: ").length = 33 := rfl
    have h4 : ("" : String).length = 0 := rfl
    have h5 : ("...").length = 3 := rfl
    omega

/-! ## C2: totality and well-formedness of `generate_response` -/

/-- C2 (confirmed): for every environment and input, `generate_response`
returns a well-formed response object: its session id is the supplied one when
truthy, else the freshly minted uuid; when any internal step raises (the
embedding step being the one raising step — every other helper absorbs its own
failures) the object is the generic apology with empty sources and an error
marker in the metadata; on success the metadata has the success shape.  The
minted uuid is assumed non-empty, as `str(uuid.uuid4())` is. -/
theorem generate_response_contract (env : RAGEnv) (chatbot_id : Nat)
    (message : String) (chatbot_prompts : List ChatbotPrompt)
    (session_id : Option String) (user_prompts : Option (List UserPrompt))
    (huuid : env.fresh_uuid ≠ "") :
    (generate_response env chatbot_id message chatbot_prompts session_id
        user_prompts).session_id = resolve_session session_id env.fresh_uuid
    ∧ (∀ e, env.embed_result = .error e →
        generate_response env chatbot_id message chatbot_prompts session_id
            user_prompts
          = { response := "I'm sorry, I encountered an error while processing your request.",
              sources := [],
              session_id := resolve_session session_id env.fresh_uuid,
              metadata := .err e })
    ∧ (∀ v, env.embed_result = .ok v →
        ∃ tokens chunks,
          (generate_response env chatbot_id message chatbot_prompts session_id
              user_prompts).metadata = .ok ollama_model tokens 0 chunks) := by
  have hsid : resolve_session session_id env.fresh_uuid ≠ "" :=
    resolve_session_ne_empty session_id env.fresh_uuid huuid
  have hsid' : (resolve_session session_id env.fresh_uuid == "") = false := by
    simpa using hsid
  refine ⟨?_, ?_, ?_⟩
  · cases henv : env.embed_result with
    | error e =>
      rw [generate_response_error env chatbot_id message chatbot_prompts
        session_id user_prompts e henv]
      simp [hsid']
    | ok v =>
      rw [generate_response_ok env chatbot_id message chatbot_prompts
        session_id user_prompts v henv]
  · intro e he
    rw [generate_response_error env chatbot_id message chatbot_prompts
      session_id user_prompts e he]
    simp [hsid']
  · intro v hv
    rw [generate_response_ok env chatbot_id message chatbot_prompts
      session_id user_prompts v hv]
    exact ⟨_, _, rfl⟩

/-- An environment whose every collaborator succeeds. -/
def envOk : RAGEnv :=
  { embed_result := .ok [1, 0], search_fail := false, dist := distZero,
    rows := [], ollama := .http 200 (some "hello"), fresh_uuid := "uuid-a",
    fresh_uuid2 := "uuid-b", master_prompt := "" }

/-- Witness for `generate_response_contract` at a concrete request. -/
theorem generate_response_contract_witness :
    (generate_response envOk 1 "hi" [] none none).session_id
        = resolve_session none envOk.fresh_uuid
    ∧ (∀ e, envOk.embed_result = .error e →
        generate_response envOk 1 "hi" [] none none
          = { response := "I'm sorry, I encountered an error while processing your request.",
              sources := [],
              session_id := resolve_session none envOk.fresh_uuid,
              metadata := .err e })
    ∧ (∀ v, envOk.embed_result = .ok v →
        ∃ tokens chunks,
          (generate_response envOk 1 "hi" [] none none).metadata
            = .ok ollama_model tokens 0 chunks) :=
  generate_response_contract envOk 1 "hi" [] none none (by decide)

/-! ## C3: behavior on an embedding failure -/

/-- An environment where the embedding step raises while retrieval and the
generation backend would succeed. -/
def envEmbedFail : RAGEnv :=
  { embed_result := .error "EmbeddingError: model failure", search_fail := false,
    dist := distZero, rows := [], ollama := .http 200 (some "A degraded but normal answer"),
    fresh_uuid := "u1", fresh_uuid2 := "u2", master_prompt := "" }

/-- C3 counterexample: when the embedding step raises, the code does NOT
continue to the generation step with an empty match set: the exception reaches
the global handler and the request answers with the generic apology — although
the generation path, had it been taken with an empty match set, would have
returned the backend's reply. -/
theorem embedding_failure_hits_catch_all :
    generate_response envEmbedFail 7 "hi" [] (some "sess-1") none
      = { response := "I'm sorry, I encountered an error while processing your request.",
          sources := [], session_id := "sess-1",
          metadata := .err "EmbeddingError: model failure" }
    ∧ generate_with_ollama envEmbedFail.ollama "hi" (prepare_context [])
        (build_system_prompts "" none []) = "A degraded but normal answer"
    ∧ "I'm sorry, I encountered an error while processing your request."
        ≠ "A degraded but normal answer" :=
  ⟨rfl, rfl, by decide⟩

/-- C3 amended: on an `EmbeddingError` the orchestrator does not recover
locally: the exception propagates to the global catch-all and the request
returns the generic-apology object (empty sources, the error in metadata, the
resolved session id) instead of proceeding to generation with an empty match
set. -/
theorem embedding_failure_returns_apology (env : RAGEnv) (chatbot_id : Nat)
    (message : String) (chatbot_prompts : List ChatbotPrompt)
    (session_id : Option String) (user_prompts : Option (List UserPrompt))
    (e : String) (he : env.embed_result = .error e)
    (huuid : env.fresh_uuid ≠ "") :
    generate_response env chatbot_id message chatbot_prompts session_id user_prompts
      = { response := "I'm sorry, I encountered an error while processing your request.",
          sources := [],
          session_id := resolve_session session_id env.fresh_uuid,
          metadata := .err e } := by
  rw [generate_response_error env chatbot_id message chatbot_prompts session_id
    user_prompts e he]
  have hsid' : (resolve_session session_id env.fresh_uuid == "") = false := by
    simpa using resolve_session_ne_empty session_id env.fresh_uuid huuid
  simp [hsid']

/-- Witness for `embedding_failure_returns_apology`. -/
theorem embedding_failure_returns_apology_witness :
    generate_response envEmbedFail 1 "q" [] none none
      = { response := "I'm sorry, I encountered an error while processing your request.",
          sources := [],
          session_id := resolve_session none envEmbedFail.fresh_uuid,
          metadata := .err "EmbeddingError: model failure" } :=
  embedding_failure_returns_apology envEmbedFail 1 "q" [] none none
    "EmbeddingError: model failure" rfl (by decide)

/-! ## C4: behavior on a failing generation backend -/

/-- C4 (confirmed): when the embedding step succeeded and the generation
backend always fails (non-2xx or transport error), the response text is the
non-empty local fallback — the canned no-information message when the
assembled context carries the no-information sentinel (which it always does
for an empty match set), else a 300-character excerpt of the context — and the
sources list reflects exactly the retrieved matches. -/
theorem backend_failure_fallback (env : RAGEnv) (chatbot_id : Nat)
    (message : String) (chatbot_prompts : List ChatbotPrompt)
    (session_id : Option String) (user_prompts : Option (List UserPrompt))
    (v : List ℚ) (hv : env.embed_result = .ok v)
    (hfail : env.ollama.isFailure = true) :
    (generate_response env chatbot_id message chatbot_prompts session_id
        user_prompts).response
      = ollamaFallback (prepare_context (similarity_search env.search_fail
          env.dist env.rows chatbot_id v 5 (1 / 10)))
    ∧ (generate_response env chatbot_id message chatbot_prompts session_id
        user_prompts).response ≠ ""
    ∧ (generate_response env chatbot_id message chatbot_prompts session_id
        user_prompts).sources
      = prepare_sources chatbot_id (similarity_search env.search_fail env.dist
          env.rows chatbot_id v 5 (1 / 10))
    ∧ (generate_response env chatbot_id message chatbot_prompts session_id
        user_prompts).response
      = (if containsSub (prepare_context (similarity_search env.search_fail
            env.dist env.rows chatbot_id v 5 (1 / 10))) noInfoMarker then
          "I don't have specific information about that in my knowledge base. Could you please provide more details or ask about something else?"
        else "Based on the information I have: "
          ++ (prepare_context (similarity_search env.search_fail env.dist
                env.rows chatbot_id v 5 (1 / 10))).take 300 ++ "...") := by
  have hbase := generate_response_ok env chatbot_id message chatbot_prompts
    session_id user_prompts v hv
  have hresp : (generate_response env chatbot_id message chatbot_prompts
      session_id user_prompts).response
      = ollamaFallback (prepare_context (similarity_search env.search_fail
          env.dist env.rows chatbot_id v 5 (1 / 10))) := by
    rw [hbase]
    exact generate_with_ollama_failure env.ollama message
      (prepare_context (similarity_search env.search_fail env.dist env.rows
        chatbot_id v 5 (1 / 10)))
      (build_system_prompts env.master_prompt user_prompts chatbot_prompts)
      hfail
  refine ⟨hresp, ?_, ?_, ?_⟩
  · rw [hresp]
    exact ollamaFallback_ne_empty _
  · rw [hbase]
  · rw [hresp]
    rfl

/-- An environment whose backend always answers 503. -/
def envGenFail : RAGEnv :=
  { embed_result := .ok [1, 0], search_fail := false, dist := distZero,
    rows := [], ollama := .http 503 none, fresh_uuid := "u1",
    fresh_uuid2 := "u2", master_prompt := "M" }

/-- Witness for `backend_failure_fallback`. -/
theorem backend_failure_fallback_witness :
    (generate_response envGenFail 1 "q" [] none none).response
      = ollamaFallback (prepare_context (similarity_search envGenFail.search_fail
          envGenFail.dist envGenFail.rows 1 [1, 0] 5 (1 / 10)))
    ∧ (generate_response envGenFail 1 "q" [] none none).response ≠ ""
    ∧ (generate_response envGenFail 1 "q" [] none none).sources
      = prepare_sources 1 (similarity_search envGenFail.search_fail
          envGenFail.dist envGenFail.rows 1 [1, 0] 5 (1 / 10))
    ∧ (generate_response envGenFail 1 "q" [] none none).response
      = (if containsSub (prepare_context (similarity_search envGenFail.search_fail
            envGenFail.dist envGenFail.rows 1 [1, 0] 5 (1 / 10))) noInfoMarker then
          "I don't have specific information about that in my knowledge base. Could you please provide more details or ask about something else?"
        else "Based on the information I have: "
          ++ (prepare_context (similarity_search envGenFail.search_fail
                envGenFail.dist envGenFail.rows 1 [1, 0] 5 (1 / 10))).take 300
          ++ "...") :=
  backend_failure_fallback envGenFail 1 "q" [] none none [1, 0] rfl rfl

/-! ## C10: substring-based sentinel detection -/

/-- C10 (confirmed): the empty-context condition is detected by substring, not
by the match set: whenever the assembled context contains the marker — in
particular when matches WERE retrieved and one chunk's own stored text carries
it — the user prompt is the bare message wrapped with the no-knowledge note,
and a failing backend yields the canned no-information message rather than the
context excerpt. -/
theorem context_sentinel_by_substring (similar_docs : List RetrievedMatch)
    (message : String) (outcome : OllamaOutcome) (system_prompts : List String)
    (hsub : containsSub (prepare_context similar_docs) noInfoMarker = true)
    (hfail : outcome.isFailure = true) :
    compose_user_prompt message (prepare_context similar_docs)
      = message
        ++ "\n\nNote: I don't have specific information about this in my knowledge base."
    ∧ generate_with_ollama outcome message (prepare_context similar_docs)
        system_prompts
      = "I don't have specific information about that in my knowledge base. Could you please provide more details or ask about something else?" := by
  constructor
  · unfold compose_user_prompt
    rw [if_pos hsub]
  · rw [generate_with_ollama_failure outcome message _ system_prompts hfail]
    unfold ollamaFallback
    rw [if_pos hsub]

/-- A retrieved (non-empty) match set whose chunk text itself carries the
marker. -/
def docsWithMarker : List RetrievedMatch :=
  [{ id := 1, chatbot_id := 1, source_type := "document", source_id := 1,
     content := "The page said: No relevant information found, try again later.",
     chunk_index := 0, metadata := [], similarity := 1 }]

/-- Witness for `context_sentinel_by_substring`: matches were retrieved, yet
the substring check routes the request down the no-knowledge path. -/
theorem context_sentinel_by_substring_witness :
    compose_user_prompt "q" (prepare_context docsWithMarker)
      = "q"
        ++ "\n\nNote: I don't have specific information about this in my knowledge base."
    ∧ generate_with_ollama (.exn "timeout") "q" (prepare_context docsWithMarker) []
      = "I don't have specific information about that in my knowledge base. Could you please provide more details or ask about something else?" :=
  context_sentinel_by_substring docsWithMarker "q" (.exn "timeout") []
    (by decide) rfl

end Chatbot
